import Mathlib

/-!
# Verification of the datacube metadata-derivation engine

A shallow embedding of `src/stactools/datacube/stac.py`: dimension
classification, coordinate-sampling analysis, time-unit parsing, ISO-8601
duration encoding, dimension building, geometry derivation and the
item/asset temporal-extent logic, together with theorems settling the
specification claims.

Modelling conventions:
* Python floats are modelled as exact rationals (`ℚ`); the spec's data model
  declares coordinate samples to be sequences of real numbers.
* `datetime` values are modelled as integer microseconds since
  1970-01-01T00:00:00 (Python datetimes have microsecond resolution);
  `timedelta` values as integer microseconds.
* Python exceptions become an explicit error type (`StacError`); each
  constructor records which concrete exception the code raises.
-/

/-! ## String helpers

Lean's built-in `String.toLower`, `String.toNat?`, `String.takeWhile` and
`String.startsWith` do not reduce inside the kernel, so the same operations
are spelled out over the character list here. -/

/-- `str.lower()`. -/
def strToLower (s : String) : String := String.mk (s.data.map Char.toLower)

/-- Decimal digit parsing of a non-empty all-digit string (`int(s)` on the
strings this development feeds it). -/
def strToNat? (s : String) : Option ℕ :=
  if s.data.isEmpty then none
  else
    s.data.foldl
      (fun acc c =>
        match acc with
        | some n => if c.isDigit then some (n * 10 + (c.toNat - 48)) else none
        | none => none)
      (some 0)

/-- `s.startswith(p)`. -/
def strStartsWith (s p : String) : Bool := p.data.isPrefixOf s.data

/-- Longest prefix of `s` whose characters satisfy `p`. -/
def strTakeWhile (s : String) (p : Char → Bool) : String :=
  String.mk (s.data.takeWhile p)


/-! ## Dimension classification (stac.py lines 42-73) -/

def is_horizontal_x_dimension_name (typeName : String) : Bool :=
  typeName == "lon" || typeName == "long" || typeName == "longitude"

def is_horizontal_y_dimension_name (typeName : String) : Bool :=
  typeName == "lat" || typeName == "latitude"

def is_vertical_dimension_name (typeName : String) : Bool :=
  typeName == "z" || typeName == "elevation"

def is_temporal_dimension_name (typeName : String) : Bool :=
  typeName == "time"

/-- Name-based classification: the `else` cascade of `get_dimension_type`. -/
def classifyDimensionName (name : String) : String :=
  let n := strToLower name
  if is_horizontal_x_dimension_name n then "HORIZONTAL_X"
  else if is_horizontal_y_dimension_name n then "HORIZONTAL_Y"
  else if is_vertical_dimension_name n then "VERTICAL"
  else if is_temporal_dimension_name n then "TEMPORAL"
  else "OTHER"

/-- `get_dimension_type`: an explicit `type` entry wins when truthy (the code
uses `if typ:`, so an empty string falls through to name matching). -/
def get_dimension_type (explicitType : Option String) (name : String) : String :=
  match explicitType with
  | some t => if t.isEmpty then classifyDimensionName name else t
  | none => classifyDimensionName name

/-! ## Sampling analysis (stac.py lines 172-190)

The body of `read_dimensions_and_variables` that decides regular versus
irregular spacing of a coordinate sample; the spec calls it
`SamplingAnalyzer`. -/

/-- `np.diff`: successive differences `data[i+1] - data[i]`. -/
def npDiff (data : List ℚ) : List ℚ :=
  List.zipWith (fun a b => b - a) data data.tail

/-- `np.mean`. -/
def npMean (xs : List ℚ) : ℚ := xs.sum / xs.length

/-- `np.allclose(xs, b, rtol=rtol)` with numpy's default `atol = 1e-8`:
every element satisfies `|a - b| ≤ atol + rtol * |b|`. -/
def npAllclose (xs : List ℚ) (b rtol : ℚ) : Bool :=
  xs.all (fun a => decide (|a - b| ≤ 1 / 100000000 + rtol * |b|))

structure SamplingResult where
  step : Option ℚ
  values : List ℚ
  evenlySpaced : Bool
  deriving Repr, DecidableEq

/-- Lines 172-190 of `read_dimensions_and_variables`:
if more than one successive difference exists, test `np.allclose` against the
mean; a bit-identical difference list yields `step = diff[0]`, an allclose one
yields `step = (data[-1] - data[0]) / len(data)`; `values` is the full sample
exactly when not evenly spaced.  With at most one difference: no step, values
verbatim. -/
def analyzeSampling (data : List ℚ) (rtol : ℚ) : SamplingResult :=
  let diff := npDiff data
  if 1 < diff.length then
    let evenlySpaced := npAllclose diff (npMean diff) rtol
    let step : Option ℚ :=
      if diff.all (fun x => decide (x = diff.headD 0)) then some (diff.headD 0)
      else if evenlySpaced then
        some ((data.getLastD 0 - data.headD 0) / data.length)
      else none
    { step := step
      values := if evenlySpaced then [] else data
      evenlySpaced := evenlySpaced }
  else
    { step := none, values := data, evenlySpaced := false }


/-! ## Calendar arithmetic and timestamps

Python `datetime` values are modelled as integer microseconds since
1970-01-01T00:00:00, `timedelta` values as integer microseconds (both have
microsecond resolution, so this representation is exact). -/

/-- Decimal digits of `n`, left-padded with zeros to width `w`. -/
def padZeros (w : ℕ) (n : ℕ) : String :=
  let s := toString n
  String.mk (List.replicate (w - s.length) '0') ++ s

/-- Day count since 1970-01-01 of a proleptic Gregorian date
(the standard `days_from_civil` algorithm). -/
def daysFromCivil (y m d : ℤ) : ℤ :=
  let y' := if m ≤ 2 then y - 1 else y
  let era := (if 0 ≤ y' then y' else y' - 399) / 400
  let yoe := y' - era * 400
  let doy := (153 * (if 2 < m then m - 3 else m + 9) + 2) / 5 + d - 1
  let doe := yoe * 365 + yoe / 4 - yoe / 100 + doy
  era * 146097 + doe - 719468

/-- Inverse of `daysFromCivil` (the standard `civil_from_days` algorithm). -/
def civilFromDays (z : ℤ) : ℤ × ℤ × ℤ :=
  let z' := z + 719468
  let era := (if 0 ≤ z' then z' else z' - 146096) / 146097
  let doe := z' - era * 146097
  let yoe := (doe - doe / 1460 + doe / 36524 - doe / 146097) / 365
  let y := yoe + era * 400
  let doy := doe - (365 * yoe + yoe / 4 - yoe / 100)
  let mp := (5 * doy + 2) / 153
  let d := doy - (153 * mp + 2) / 5 + 1
  let m := if mp < 10 then mp + 3 else mp - 9
  (if m ≤ 2 then y + 1 else y, m, d)

/-- Microsecond timestamp of a civil date-time. -/
def datetimeUs (y mo d h mi s us : ℤ) : ℤ :=
  (((daysFromCivil y mo d * 24 + h) * 60 + mi) * 60 + s) * 1000000 + us

/-- `datetime.isoformat()`: `YYYY-MM-DDTHH:MM:SS`, with a `.ffffff` suffix
exactly when the microsecond field is non-zero. -/
def isoformat (t : ℤ) : String :=
  let days := t / 86400000000
  let rem := (t % 86400000000).toNat
  let ymd := civilFromDays days
  let h := rem / 3600000000
  let mi := rem % 3600000000 / 60000000
  let s := rem % 60000000 / 1000000
  let us := rem % 1000000
  padZeros 4 ymd.1.toNat ++ "-" ++ padZeros 2 ymd.2.1.toNat ++ "-" ++
    padZeros 2 ymd.2.2.toNat ++ "T" ++ padZeros 2 h ++ ":" ++ padZeros 2 mi ++
    ":" ++ padZeros 2 s ++ (if us = 0 then "" else "." ++ padZeros 6 us)

/-- Modelled from the spec: the external `dateutil` timestamp parser
("accepts common ISO-like and natural date formats"), restricted here to ISO
`YYYY-MM-DD` dates; returns `(year, month, day)`. -/
def parseDateYMD (s : String) : Option (ℤ × ℤ × ℤ) :=
  if s.length == 10 then
    match strToNat? (s.take 4), strToNat? ((s.drop 5).take 2),
        strToNat? (s.drop 8) with
    | some y, some mo, some d =>
      if (s.drop 4).take 1 == "-" && (s.drop 7).take 1 == "-" &&
          1 ≤ mo && mo ≤ 12 && 1 ≤ d && d ≤ 31 then
        some ((y : ℤ), (mo : ℤ), (d : ℤ))
      else none
    | _, _, _ => none
  else none

/-- Modelled from the spec: the external `dateutil.parser.parse` collaborator,
restricted to ISO timestamps `YYYY-MM-DD[THH:MM:SS[.ffffff]]`; any other
string is a parse failure (dateutil raises `ParserError`). -/
def parse_datetime (str : String) : Option ℤ :=
  match parseDateYMD (str.take 10) with
  | none => none
  | some (y, mo, d) =>
    if str.length == 10 then some (datetimeUs y mo d 0 0 0 0)
    else if (str.drop 10).take 1 == "T" then
      let t := str.drop 11
      if t.length == 8 || (t.length == 15 && (t.drop 8).take 1 == ".") then
        match strToNat? (t.take 2), strToNat? ((t.drop 3).take 2),
            strToNat? ((t.drop 6).take 2) with
        | some h, some mi, some s =>
          if (t.drop 2).take 1 == ":" && (t.drop 5).take 1 == ":" &&
              h ≤ 23 && mi ≤ 59 && s ≤ 59 then
            match (if t.length == 8 then some 0 else strToNat? (t.drop 9)) with
            | some u => some (datetimeUs y mo d h mi s u)
            | none => none
          else none
        | _, _, _ => none
      else none
    else none

/-! ## Time-unit parsing (stac.py lines 76-87) -/

deriving instance DecidableEq for Except

/-- The exception kinds the embedded code can raise; each constructor names
the concrete Python exception. -/
inductive StacError
  /-- `IndexError`: `data[0]` on an empty coordinate array (stac.py:192). -/
  | indexError
  /-- `TypeError` from `UNIT_RE.match(None)`: a temporal dimension reached
  `get_time_offset_and_step` with no unit (stac.py:235 with `unit = None`). -/
  | missingTimeUnit
  /-- `ValueError("Failed to parse time unit from ...")` (stac.py:86). -/
  | unitParseError
  /-- `dateutil.parser.ParserError` on the reference timestamp (stac.py:83). -/
  | timestampParseError
  /-- `TypeError`: `timedelta()` got an unexpected keyword argument
  (stac.py:84). -/
  | badStepWord
  deriving Repr, DecidableEq

/-- A regex word character (`\w`, ASCII). -/
def isWordChar (c : Char) : Bool := c.isAlphanum || c == '_'

/-- `UNIT_RE.match(unit)` for `UNIT_RE = re.compile(r"(\w+) since (.*)")`:
`re.match` anchors at the start only, `\w+` must take the maximal word-char
prefix (backtracking cannot help, since `" since "` starts with a non-word
character), and `(.*)` takes the remaining characters up to a newline.
Returns the two groups. -/
def unitRegexMatch (s : String) : Option (String × String) :=
  let w := strTakeWhile s isWordChar
  if w.data.isEmpty then none
  else
    let rest := s.drop w.length
    if strStartsWith rest " since " then
      some (w, strTakeWhile (rest.drop 7) (fun c => !(c == '\n')))
    else none

/-- The keyword arguments `datetime.timedelta` accepts, mapped to the length
of one such unit in microseconds. -/
def timedeltaUnitUs (word : String) : Option ℤ :=
  if word == "weeks" then some 604800000000
  else if word == "days" then some 86400000000
  else if word == "hours" then some 3600000000
  else if word == "minutes" then some 60000000
  else if word == "seconds" then some 1000000
  else if word == "milliseconds" then some 1000
  else if word == "microseconds" then some 1
  else none

/-- `get_time_offset_and_step` (stac.py lines 79-86): match the unit against
`UNIT_RE`; on success parse the timestamp group (dateutil) and build
`timedelta(**{step_unit: 1})`; on no match raise
`ValueError("Failed to parse time unit ...")`. -/
def get_time_offset_and_step (unit : String) : Except StacError (ℤ × ℤ) :=
  match unitRegexMatch unit with
  | none => .error .unitParseError
  | some (stepUnit, offsetStr) =>
    match parse_datetime offsetStr with
    | none => .error .timestampParseError
    | some offset =>
      match timedeltaUnitUs stepUnit with
      | none => .error .badStepWord
      | some stepUs => .ok (offset, stepUs)

/-- Round to the nearest integer, ties to even: the rounding Python applies
when converting the exact product of a `timedelta` and a `float` to whole
microseconds. -/
def roundHalfEven (q : ℚ) : ℤ :=
  let f := Int.floor q
  let r := q - f
  if r < 1 / 2 then f
  else if 1 / 2 < r then f + 1
  else if f % 2 = 0 then f else f + 1

/-- `timedelta * float`: exact product, rounded half-even to microseconds. -/
def tdMul (x : ℚ) (us : ℤ) : ℤ := roundHalfEven (x * us)


/-! ## ISO 8601 duration encoding (stac.py lines 89-134) -/

/-- The `date_intervals` table of `iso_duration`. -/
def date_intervals : List (String × ℕ) := [("W", 604800), ("D", 86400)]

/-- The `time_intervals` table of `iso_duration`. -/
def time_intervals : List (String × ℕ) := [("H", 3600), ("M", 60)]

/-- One iteration of an extraction loop of `iso_duration`:
`value = int(seconds // count)` (Python float floor-division, hence
`Int.floor`); when the value is non-zero, subtract `value * count` from the
running seconds and append `f"{value}{name}"` to the part list. -/
def extractStep (st : ℚ × List String) (p : String × ℕ) : ℚ × List String :=
  let value : ℤ := ⌊st.1 / (p.2 : ℚ)⌋
  if value ≠ 0 then (st.1 - value * p.2, st.2 ++ [toString value ++ p.1])
  else st

/-- An extraction loop of `iso_duration` over an interval table. -/
def extractIntervals (intervals : List (String × ℕ)) (state : ℚ × List String) :
    ℚ × List String :=
  intervals.foldl extractStep state

/-- `f"{x:n}"` as applied inside `iso_duration`: the guard has established
that `x` is integral (and the remaining seconds are non-negative there), so
this is the plain decimal rendering. -/
def formatN (q : ℚ) : String := toString ⌊q⌋

/-- `f"{x:f}"`: fixed six decimal places.  The remaining seconds reaching it
are non-negative multiples of `1e-6` (a `timedelta` has microsecond
resolution), for which six fixed places are exact. -/
def formatF (q : ℚ) : String :=
  let t : ℤ := ⌊q * 1000000⌋
  toString (t / 1000000) ++ "." ++ padZeros 6 (t % 1000000).toNat

/-- `iso_duration` (stac.py lines 89-134) on `td.total_seconds()`: greedy
extraction of weeks and days into the date part and hours and minutes into
the time part; a non-zero remainder is rendered as seconds (`:n` when
integral, `:f` otherwise); `P<date>T<time>` when the time part is non-empty,
`P<date>` when only the date part is, `"PT0S"` otherwise. -/
def iso_duration (seconds : ℚ) : String :=
  let dateState := extractIntervals date_intervals (seconds, [])
  let timeState := extractIntervals time_intervals (dateState.1, [])
  let rem := timeState.1
  let time_part :=
    if rem ≠ 0 then
      timeState.2 ++ [(if (⌊rem⌋ : ℚ) = rem then formatN rem else formatF rem) ++ "S"]
    else timeState.2
  if time_part ≠ [] then
    "P" ++ String.join dateState.2 ++ "T" ++ String.join time_part
  else if dateState.2 ≠ [] then "P" ++ String.join dateState.2
  else "PT0S"


/-! ## Dimension building (stac.py lines 157-263) -/

/-- `timedelta.total_seconds()` of a microsecond count. -/
def total_seconds (us : ℤ) : ℚ := (us : ℚ) / 1000000

/-- The per-kind dimension dictionaries the code constructs, flattened into
one record: the numeric fields serve the spatial/other variants, the string
fields the temporal variant (whose extent and values are ISO timestamps and
whose step is an ISO duration).  `none` models both an absent key and a JSON
null; in particular the `values` key is added only when the computed list is
non-empty (`**({"values": values} if values else {})`), and the temporal
dictionary carries no unit key at all (the code nulls `unit` after
translating to ISO and its dictionary has no "unit" entry).
`referenceSystem` is never populated by this module (stac.py:265 TODO). -/
structure DimensionDict where
  dimType : String
  axis : Option String := none
  extentNum : Option (List ℚ) := none
  extentStr : Option (List String) := none
  stepNum : Option ℚ := none
  stepStr : Option String := none
  unit : Option String := none
  valuesNum : Option (List ℚ) := none
  valuesStr : Option (List String) := none
  referenceSystem : Option ℤ := none
  deriving Repr, DecidableEq

/-- The loop body of `read_dimensions_and_variables` for one raw dimension
(stac.py lines 158-263), given the dimension's semantic type, coordinate
sample and unit: run the sampling analysis, compute
`extent = [data[0], data[-1]]` (an `IndexError` on an empty sample, line
192), and build the per-kind dictionary; the temporal branch translates
extent, values and step through the parsed time unit (lines 233-253),
raising when the unit is `None`. -/
def buildDimension (typ : String) (data : List ℚ) (unit : Option String)
    (rtol : ℚ) : Except StacError DimensionDict :=
  let r := analyzeSampling data rtol
  match data with
  | [] => .error .indexError
  | d0 :: rest =>
    let dLast := (d0 :: rest).getLast (List.cons_ne_nil d0 rest)
    if typ == "HORIZONTAL_X" || typ == "HORIZONTAL_Y" then
      .ok { dimType := "spatial"
            axis := some (if typ == "HORIZONTAL_X" then "x" else "y")
            extentNum := some [d0, dLast]
            stepNum := r.step
            unit := unit
            valuesNum := if r.values.isEmpty then none else some r.values }
    else if typ == "VERTICAL" then
      .ok { dimType := "spatial"
            axis := some "z"
            extentNum := some [d0, dLast]
            stepNum := r.step
            unit := unit
            valuesNum := if r.values.isEmpty then none else some r.values }
    else if typ == "TEMPORAL" then
      match unit with
      | none => .error .missingTimeUnit
      | some u =>
        match get_time_offset_and_step u with
        | .error e => .error e
        | .ok (offset, stepUs) =>
          let valuesT := r.values.map (fun v => isoformat (offset + tdMul v stepUs))
          .ok { dimType := "temporal"
                extentStr := some [isoformat (offset + tdMul d0 stepUs),
                  isoformat (offset + tdMul dLast stepUs + stepUs)]
                stepStr := r.step.map
                  (fun q => iso_duration (total_seconds (tdMul q stepUs)))
                valuesStr := if valuesT.isEmpty then none else some valuesT }
    else
      .ok { dimType := "other"
            extentNum := some [d0, dLast]
            stepNum := r.step
            unit := unit
            valuesNum := if r.values.isEmpty then none else some r.values }

/-- A raw dimension descriptor as read from `gdal.MultiDimInfo`: name, size,
optional explicit type and — when the dimension has an indexing variable —
that variable's coordinate array together with its optional unit attribute. -/
structure RawDimension where
  name : String
  size : ℕ
  explicitType : Option String := none
  indexingData : Option (List ℚ × Option String) := none

/-- Coordinate sample of a raw dimension: the indexing variable's array, or
`np.arange(size)` when there is none (stac.py lines 164-170). -/
def rawData (raw : RawDimension) : List ℚ :=
  match raw.indexingData with
  | some (d, _) => d
  | none => (List.range raw.size).map (fun i => (i : ℚ))

/-- Unit of a raw dimension: the indexing variable's `unit` attribute, `None`
when there is no indexing variable (stac.py lines 194-198). -/
def rawUnit (raw : RawDimension) : Option String :=
  match raw.indexingData with
  | some (_, u) => u
  | none => none

/-- One iteration of the dimension loop of `read_dimensions_and_variables`. -/
def buildRawDimension (raw : RawDimension) (rtol : ℚ) :
    Except StacError DimensionDict :=
  buildDimension (get_dimension_type raw.explicitType raw.name) (rawData raw)
    (rawUnit raw) rtol


/-! ## Geometry derivation (stac.py lines 284-372) -/

/-- `_get_dimension` (stac.py lines 284-298): the first dimension of the
requested type, additionally filtered by axis when one is given. -/
def findDimension (dims : List DimensionDict) (t : String)
    (axis : Option String) : Option DimensionDict :=
  match axis with
  | none => dims.find? (fun d => d.dimType == t)
  | some a => dims.find? (fun d => d.dimType == t && d.axis == some a)

/-- Modelled from the spec: the external reprojection collaborator
(`stactools.core.projection.reproject_geom`) with source CRS = target CRS =
EPSG:4326 — the identity on coordinates, "rounding output coordinates to 6
decimal digits". -/
def roundCoord6 (q : ℚ) : ℚ := (roundHalfEven (q * 1000000) : ℚ) / 1000000

/-- `shapely.geometry.box(minx, miny, maxx, maxy)`: the exterior ring,
counterclockwise from the bottom-right corner. -/
def boxRing (minx miny maxx maxy : ℚ) : List (ℚ × ℚ) :=
  [(maxx, miny), (maxx, maxy), (minx, maxy), (minx, miny), (maxx, miny)]

/-- The dataset-level attributes the geometry fallback consults. -/
structure GeoAttributes where
  lonMin : Option ℚ := none
  latMin : Option ℚ := none
  lonMax : Option ℚ := none
  latMax : Option ℚ := none
  deriving Repr, DecidableEq

/-- The `elif` branch of `get_geometry` (stac.py lines 355-371): a box over
the four `geospatial_*` attributes when all are present (kept in the
dataset's geographic coordinates, no reprojection), else no geometry. -/
def geometryFallback (attrs : GeoAttributes) : Option (List (ℚ × ℚ)) :=
  match attrs.lonMin, attrs.latMin, attrs.lonMax, attrs.latMax with
  | some a, some b, some c, some d => some (boxRing a b c d)
  | _, _, _, _ => none

/-- `get_geometry` (stac.py lines 309-372), returning the polygon's exterior
ring.  The main branch needs both horizontal spatial dimensions, takes their
extents as given (the code destructures `x_low, x_high = x_dim.extent`;
dimensions built by this module always carry two-element extents), expands
each extent by half a step on each side when that dimension has a non-null
step, boxes the bounds and reprojects.  This module never populates
`reference_system` (stac.py:265 TODO), so `x_dim.reference_system or 4326`
is EPSG:4326 and the reprojection to EPSG:4326 reduces to coordinate
rounding. -/
def get_geometry (dims : List DimensionDict) (attrs : GeoAttributes) :
    Option (List (ℚ × ℚ)) :=
  match findDimension dims "spatial" (some "x"),
      findDimension dims "spatial" (some "y") with
  | some xd, some yd =>
    match xd.extentNum, yd.extentNum with
    | some [xl0, xh0], some [yl0, yh0] =>
      let xl := match xd.stepNum with | some s => xl0 - s / 2 | none => xl0
      let xh := match xd.stepNum with | some s => xh0 + s / 2 | none => xh0
      let yl := match yd.stepNum with | some s => yl0 - s / 2 | none => yl0
      let yh := match yd.stepNum with | some s => yh0 + s / 2 | none => yh0
      some ((boxRing xl yl xh yh).map
        (fun p => (roundCoord6 p.1, roundCoord6 p.2)))
    | _, _ => geometryFallback attrs
  | _, _ => geometryFallback attrs

/-! ## Item-level extension (stac.py lines 375-453) -/

/-- The slice of a STAC item's state that `extend_asset` and `extend_item`
read and write: geometry, bbox and the three datetime properties. -/
structure ItemState where
  geometry : Option (List (ℚ × ℚ)) := none
  bbox : Option (List ℚ) := none
  startDatetime : Option ℤ := none
  endDatetime : Option ℤ := none
  datetime : Option ℤ := none
  deriving Repr, DecidableEq

/-- `shapely.geometry.shape(geometry).bounds` of a ring:
`[minx, miny, maxx, maxy]`. -/
def ringBounds (ring : List (ℚ × ℚ)) : List ℚ :=
  match ring with
  | [] => []
  | p :: ps =>
    [ps.foldl (fun m q => min m q.1) p.1, ps.foldl (fun m q => min m q.2) p.2,
      ps.foldl (fun m q => max m q.1) p.1, ps.foldl (fun m q => max m q.2) p.2]

/-- `extend_asset` (stac.py lines 375-412) after the dataset read, given the
computed dimensions and dataset info.  Geometry and bbox are filled only when
the item has none.  The temporal-extent derivation then runs unconditionally:
when a temporal dimension exists and its extent is truthy, its two entries
set start/end (`parse_datetime(start) if start else None`); else the
dimension's values; else the `time_coverage_start`/`time_coverage_end`
entries of `info` (modelled by `timeCoverage`, present only when both keys
are); each of the three branches also clears `item.datetime`.  A temporal
dimension whose extent is not a two-element list would make the Python
unpacking raise; dimensions built by this module always have two entries. -/
def extend_asset (st : ItemState) (dims : List DimensionDict)
    (attrs : GeoAttributes) (timeCoverage : Option (String × String)) :
    ItemState :=
  let st1 :=
    if st.geometry.isNone then
      match get_geometry dims attrs with
      | some g => { st with geometry := some g, bbox := some (ringBounds g) }
      | none => st
    else st
  let applyCoverage : ItemState :=
    match timeCoverage with
    | some (a, b) =>
      { st1 with startDatetime := parse_datetime a
                 endDatetime := parse_datetime b
                 datetime := none }
    | none => st1
  match findDimension dims "temporal" none with
  | some td =>
    match td.extentStr with
    | some [s, e] =>
      { st1 with startDatetime := if s == "" then none else parse_datetime s
                 endDatetime := if e == "" then none else parse_datetime e
                 datetime := none }
    | _ =>
      match td.valuesStr with
      | some (v0 :: vs) =>
        { st1 with startDatetime := parse_datetime v0
                   endDatetime :=
                     parse_datetime ((v0 :: vs).getLast (List.cons_ne_nil v0 vs))
                   datetime := none }
      | _ => applyCoverage
  | none => applyCoverage

/-- The tail of `extend_item` (stac.py lines 435-452): a second, guarded
temporal-extent derivation over the same dimensions, run only when the item
still has no start datetime, no end datetime and no datetime; it repeats the
extent/values branches of `extend_asset`, without the info fallback and
without clearing `item.datetime`. -/
def extend_item_post (st : ItemState) (dims : List DimensionDict) : ItemState :=
  if st.startDatetime.isNone ∧ st.endDatetime.isNone ∧ st.datetime.isNone then
    match findDimension dims "temporal" none with
    | some td =>
      match td.extentStr with
      | some [s, e] =>
        { st with startDatetime := if s == "" then none else parse_datetime s
                  endDatetime := if e == "" then none else parse_datetime e }
      | _ =>
        match td.valuesStr with
        | some (v0 :: vs) =>
          { st with startDatetime := parse_datetime v0
                    endDatetime :=
                      parse_datetime ((v0 :: vs).getLast (List.cons_ne_nil v0 vs)) }
        | _ => st
    | none => st
  else st

/-- `extend_item` after asset selection (stac.py lines 415-453):
`extend_asset` followed by the guarded fallback derivation. -/
def extend_item (st : ItemState) (dims : List DimensionDict)
    (attrs : GeoAttributes) (timeCoverage : Option (String × String)) :
    ItemState :=
  extend_item_post (extend_asset st dims attrs timeCoverage) dims

/-- Whether a dimension dictionary carries a `values` entry. -/
def hasValuesKey (d : DimensionDict) : Prop :=
  d.valuesNum ≠ none ∨ d.valuesStr ≠ none

/-- The encoding the specification describes, as a closed-form function of a
non-negative duration of `n` microseconds: decompose the total seconds
greedily into weeks (604800 s), days (86400 s), hours (3600 s), minutes
(60 s) and remaining seconds; omit zero components; emit a `T` section
exactly when a sub-day component is non-zero; emit `"PT0S"` for the zero
duration; render integral seconds without a decimal point and fractional
seconds with their six microsecond digits. -/
def specGreedyRender (n : ℕ) : String :=
  let w := n / 604800000000
  let d := n % 604800000000 / 86400000000
  let h := n % 86400000000 / 3600000000
  let m := n % 3600000000 / 60000000
  let s := n % 60000000 / 1000000
  let us := n % 1000000
  let datePart := (if w ≠ 0 then [toString w ++ "W"] else []) ++
    (if d ≠ 0 then [toString d ++ "D"] else [])
  let timePart := (if h ≠ 0 then [toString h ++ "H"] else []) ++
    (if m ≠ 0 then [toString m ++ "M"] else []) ++
    (if s ≠ 0 ∨ us ≠ 0 then
      [(if us = 0 then toString s
        else toString s ++ "." ++ padZeros 6 us) ++ "S"]
     else [])
  if timePart ≠ [] then
    "P" ++ String.join datePart ++ "T" ++ String.join timePart
  else if datePart ≠ [] then "P" ++ String.join datePart
  else "PT0S"

/-! ## Evaluation checks -/

example : strToNat? "012" = some 12 := by decide
example : strToNat? "" = none := by decide
example : strToNat? "1a" = none := by decide

example : daysFromCivil 1970 1 1 = 0 := by decide
example : daysFromCivil 1990 1 1 = 7305 := by decide
example : civilFromDays 7305 = (1990, 1, 1) := by decide
example : isoformat 0 = "1970-01-01T00:00:00" := by decide
example : parse_datetime "1990-01-01" = some 631152000000000 := by decide
example : unitRegexMatch "days since 1990-01-01" =
    some ("days", "1990-01-01") := by decide
example : get_time_offset_and_step "days since 1990-01-01" =
    .ok (631152000000000, 86400000000) := by decide
example : get_time_offset_and_step "eons since 2000-01-01" =
    .error .badStepWord := by decide
example : get_time_offset_and_step "dayssince 1990-01-01" =
    .error .unitParseError := by decide

example : analyzeSampling [0, 1, 2] (1 / 100000) =
    ⟨some 1, [], true⟩ := by
  norm_num [analyzeSampling, npDiff, npAllclose, npMean]
example : analyzeSampling [0, 1] (1 / 100000) =
    ⟨none, [0, 1], false⟩ := by
  norm_num [analyzeSampling, npDiff, npAllclose, npMean]
example : analyzeSampling [0, 1, 2] (-1) =
    ⟨some 1, [0, 1, 2], false⟩ := by
  norm_num [analyzeSampling, npDiff, npAllclose, npMean]
example : analyzeSampling [0, 1, 2 + 1 / 1000000] (1 / 100000) =
    ⟨some ((2 + 1 / 1000000) / 3), [], true⟩ := by
  norm_num [analyzeSampling, npDiff, npAllclose, npMean, abs_of_nonneg]

example : iso_duration 604800 = "P1W" := by
  norm_num [iso_duration, extractIntervals, extractStep, date_intervals,
    time_intervals, formatN, String.join]
  decide
example : iso_duration 0 = "PT0S" := by
  norm_num [iso_duration, extractIntervals, extractStep, date_intervals,
    time_intervals]
example : iso_duration (1 / 1000000) = "PT0.000001S" := by
  norm_num [iso_duration, extractIntervals, extractStep, date_intervals,
    time_intervals, formatF, String.join, padZeros]
  decide
example : iso_duration (694861 + 1 / 1000000) = "P1W1DT1H1M1.000001S" := by
  norm_num [iso_duration, extractIntervals, extractStep, date_intervals,
    time_intervals, formatF, String.join, padZeros]
  decide

example : buildDimension "TEMPORAL" [0, 1] (some "days since 1990-01-01")
    (1 / 100000) = .ok
      { dimType := "temporal"
        extentStr := some ["1990-01-01T00:00:00", "1990-01-03T00:00:00"]
        stepStr := none
        valuesStr := some ["1990-01-01T00:00:00", "1990-01-02T00:00:00"] } := by
  norm_num [buildDimension, analyzeSampling, npDiff, tdMul, roundHalfEven]
  decide
example : buildDimension "TEMPORAL" [0, 1, 2] none (1 / 100000) =
    .error .missingTimeUnit := by
  simp [buildDimension]

/-! ## Sampling lemmas -/

lemma npDiff_length (data : List ℚ) : (npDiff data).length = data.length - 1 := by
  simp [npDiff]

lemma npMean_const {xs : List ℚ} {c : ℚ} (hne : xs ≠ [])
    (h : ∀ x ∈ xs, x = c) : npMean xs = c := by
  unfold npMean
  rw [List.sum_eq_card_nsmul xs c h, nsmul_eq_mul]
  have hlen : (xs.length : ℚ) ≠ 0 := by
    simpa using fun h0 => hne (List.length_eq_zero.mp h0)
  field_simp

lemma npAllclose_const {xs : List ℚ} {c rtol : ℚ} (hr : 0 ≤ rtol)
    (h : ∀ x ∈ xs, x = c) : npAllclose xs c rtol = true := by
  unfold npAllclose
  rw [List.all_eq_true]
  intro x hx
  rw [h x hx, decide_eq_true_iff]
  have : (0 : ℚ) ≤ rtol * |c| := mul_nonneg hr (abs_nonneg c)
  simp only [sub_self, abs_zero]
  positivity

lemma analyzeSampling_values_of_short {data : List ℚ} {rtol : ℚ}
    (h : data.length ≤ 2) :
    analyzeSampling data rtol = ⟨none, data, false⟩ := by
  unfold analyzeSampling
  rw [if_neg]
  rw [npDiff_length]
  omega

lemma analyzeSampling_long {data : List ℚ} (rtol : ℚ) (h3 : 3 ≤ data.length) :
    analyzeSampling data rtol = {
      step :=
        if (npDiff data).all (fun x => decide (x = (npDiff data).headD 0))
        then some ((npDiff data).headD 0)
        else if npAllclose (npDiff data) (npMean (npDiff data)) rtol
        then some ((data.getLastD 0 - data.headD 0) / data.length)
        else none
      values :=
        if npAllclose (npDiff data) (npMean (npDiff data)) rtol then [] else data
      evenlySpaced := npAllclose (npDiff data) (npMean (npDiff data)) rtol } := by
  unfold analyzeSampling
  rw [if_pos (by rw [npDiff_length]; omega)]

lemma npDiff_ne_nil {data : List ℚ} (h3 : 3 ≤ data.length) :
    npDiff data ≠ [] := by
  have h := npDiff_length data
  intro h0
  rw [h0] at h
  simp at h
  omega

/-- C2 (amended): for every coordinate sample with more than one element and
every non-negative rtol, exactly one of `step` (non-null) or `values`
(non-empty) is populated, never both. -/
theorem C2_step_xor_values (data : List ℚ) (rtol : ℚ) (h1 : 1 < data.length)
    (hr : 0 ≤ rtol) :
    ((analyzeSampling data rtol).step ≠ none ∧
      (analyzeSampling data rtol).values = []) ∨
    ((analyzeSampling data rtol).step = none ∧
      (analyzeSampling data rtol).values ≠ []) := by
  have hne : data ≠ [] := by
    intro h0; rw [h0] at h1; simp at h1
  rcases Nat.lt_or_ge data.length 3 with hlt | hge
  · right
    rw [analyzeSampling_values_of_short (by omega)]
    exact ⟨rfl, hne⟩
  · have hdne := npDiff_ne_nil hge
    rw [analyzeSampling_long rtol hge]
    by_cases hall :
        (npDiff data).all (fun x => decide (x = (npDiff data).headD 0)) = true
    · have hallP : ∀ x ∈ npDiff data, x = (npDiff data).headD 0 := by
        rw [List.all_eq_true] at hall
        exact fun x hx => of_decide_eq_true (hall x hx)
      have hclose : npAllclose (npDiff data) (npMean (npDiff data)) rtol = true := by
        rw [npMean_const hdne hallP]
        exact npAllclose_const hr hallP
      left
      simp only [hall, hclose, if_true]
      exact ⟨Option.some_ne_none _, trivial⟩
    · rw [Bool.not_eq_true] at hall
      by_cases hclose : npAllclose (npDiff data) (npMean (npDiff data)) rtol = true
      · left
        simp only [hall, hclose, if_true, Bool.false_eq_true, if_false]
        exact ⟨Option.some_ne_none _, trivial⟩
      · right
        rw [Bool.not_eq_true] at hclose
        simp only [hall, hclose, Bool.false_eq_true, if_false]
        exact ⟨trivial, hne⟩

/-- C2 (counterexample): with rtol = -1 the sample `[0, 1, 2]` gets both a
non-null step (the differences are bit-identical) and the full non-empty
values list (`np.allclose` is false when `atol + rtol * |mean| < 0`),
contradicting "never both — for every input sample and every rtol". -/
theorem C2_both_step_and_values :
    (analyzeSampling [0, 1, 2] (-1)).step ≠ none ∧
    (analyzeSampling [0, 1, 2] (-1)).values ≠ [] := by
  norm_num [analyzeSampling, npDiff, npAllclose, npMean]
  exact ⟨by simp, by simp⟩

theorem C2_step_xor_values_witness :
    (1 < [(0 : ℚ), 1, 2].length ∧ (0 : ℚ) ≤ 1 / 100000) ∧
    (((analyzeSampling [0, 1, 2] (1 / 100000)).step ≠ none ∧
      (analyzeSampling [0, 1, 2] (1 / 100000)).values = []) ∨
    ((analyzeSampling [0, 1, 2] (1 / 100000)).step = none ∧
      (analyzeSampling [0, 1, 2] (1 / 100000)).values ≠ [])) :=
  ⟨⟨by norm_num, by norm_num⟩,
    C2_step_xor_values [0, 1, 2] (1 / 100000) (by norm_num) (by norm_num)⟩

/-- C3: a sample of length at least 3 whose successive differences are not
all bit-identical but pass the `np.allclose` tolerance check against their
mean is reported regular with `step = (data[-1] - data[0]) / len(data)` —
span divided by the element count, not by count minus one. -/
theorem C3_allclose_step_formula (data : List ℚ) (rtol : ℚ)
    (h3 : 3 ≤ data.length)
    (hnotall : ¬ ∀ x ∈ npDiff data, x = (npDiff data).headD 0)
    (hclose : npAllclose (npDiff data) (npMean (npDiff data)) rtol = true) :
    analyzeSampling data rtol =
      ⟨some ((data.getLastD 0 - data.headD 0) / data.length), [], true⟩ := by
  rw [analyzeSampling_long rtol h3]
  have hallb :
      (npDiff data).all (fun x => decide (x = (npDiff data).headD 0)) = false := by
    rw [Bool.eq_false_iff]
    intro hb
    rw [List.all_eq_true] at hb
    exact hnotall fun x hx => of_decide_eq_true (hb x hx)
  simp only [hallb, hclose, Bool.false_eq_true, if_false, if_true]

theorem C3_allclose_step_formula_witness :
    analyzeSampling [0, 1, 2 + 1 / 1000000] (1 / 100000) =
      ⟨some (([(0 : ℚ), 1, 2 + 1 / 1000000].getLastD 0 -
        [(0 : ℚ), 1, 2 + 1 / 1000000].headD 0) /
        ([(0 : ℚ), 1, 2 + 1 / 1000000].length : ℚ)), [], true⟩ :=
  C3_allclose_step_formula [0, 1, 2 + 1 / 1000000] (1 / 100000)
    (by norm_num)
    (by
      intro h
      have h2 := h (1 + 1 / 1000000) (by norm_num [npDiff])
      norm_num [npDiff] at h2)
    (by norm_num [npAllclose, npMean, npDiff, abs_of_nonneg])

/-- C5 (amended): a sample of length at least 3 with bit-identical
successive differences always gets `step = diff[0]` (for every rtol), and
for every non-negative rtol the values list is empty; a negative rtol can
keep the full values list (see the counterexample). -/
theorem C5_bit_identical_step (data : List ℚ) (rtol : ℚ)
    (h3 : 3 ≤ data.length)
    (hall : ∀ x ∈ npDiff data, x = (npDiff data).headD 0) :
    (analyzeSampling data rtol).step = some ((npDiff data).headD 0) ∧
    (0 ≤ rtol → (analyzeSampling data rtol).values = []) := by
  have hdne := npDiff_ne_nil h3
  have hallb :
      (npDiff data).all (fun x => decide (x = (npDiff data).headD 0)) = true := by
    rw [List.all_eq_true]
    exact fun x hx => decide_eq_true (hall x hx)
  constructor
  · rw [analyzeSampling_long rtol h3]
    simp only [hallb, if_true]
  · intro hr
    rw [analyzeSampling_long rtol h3]
    have hclose : npAllclose (npDiff data) (npMean (npDiff data)) rtol = true := by
      rw [npMean_const hdne hall]
      exact npAllclose_const hr hall
    simp only [hclose, if_true]

/-- C5 (counterexample): for the sample `[5, 7, 9]` (differences
bit-identical) and rtol = -2 the code returns `step = diff[0] = 2` but a
non-empty values list, refuting "empty values regardless of rtol". -/
theorem C5_negative_rtol_keeps_values :
    (analyzeSampling [5, 7, 9] (-2)).step = some 2 ∧
    (analyzeSampling [5, 7, 9] (-2)).values ≠ [] := by
  norm_num [analyzeSampling, npDiff, npAllclose, npMean, abs_of_nonneg]
  simp

theorem C5_bit_identical_step_witness :
    (analyzeSampling [5, 7, 9] (1 / 100000)).step =
      some ((npDiff [5, 7, 9]).headD 0) ∧
    ((0 : ℚ) ≤ 1 / 100000 → (analyzeSampling [5, 7, 9] (1 / 100000)).values = []) :=
  C5_bit_identical_step [5, 7, 9] (1 / 100000) (by norm_num)
    (by
      intro x hx
      norm_num [npDiff] at hx ⊢
      try rw [hx])

/-! ## Builder claims -/

/-- C9: building a dimension classified Temporal whose unit is absent (no
indexing variable, or an indexing variable without a unit attribute) fails
with the missing-time-unit error — the `TypeError` raised when `None`
reaches `UNIT_RE.match` — an error kind distinct from the unit-parse
failure. -/
theorem C9_missing_unit_error (raw : RawDimension) (rtol : ℚ)
    (htyp : get_dimension_type raw.explicitType raw.name = "TEMPORAL")
    (hunit : rawUnit raw = none) (hdata : rawData raw ≠ []) :
    buildRawDimension raw rtol = .error .missingTimeUnit ∧
    StacError.missingTimeUnit ≠ StacError.unitParseError := by
  refine ⟨?_, by decide⟩
  unfold buildRawDimension
  rw [htyp, hunit]
  obtain ⟨d0, rest, heq⟩ := List.exists_cons_of_ne_nil hdata
  rw [heq]
  simp [buildDimension]

theorem C9_missing_unit_error_witness :
    buildRawDimension { name := "time", size := 3 } 1 =
      .error .missingTimeUnit ∧
    StacError.missingTimeUnit ≠ StacError.unitParseError :=
  C9_missing_unit_error { name := "time", size := 3 } 1 (by decide) rfl
    (by simp [rawData]; exact ⟨0, by norm_num⟩)


lemma analyzeSampling_values_nil_iff (d0 : ℚ) (rest : List ℚ) (rtol : ℚ) :
    (analyzeSampling (d0 :: rest) rtol).values = [] ↔
    (analyzeSampling (d0 :: rest) rtol).evenlySpaced = true := by
  rcases Nat.lt_or_ge (d0 :: rest).length 3 with hlt | hge
  · rw [analyzeSampling_values_of_short (by omega)]
    simp
  · rw [analyzeSampling_long rtol hge]
    by_cases hc : npAllclose (npDiff (d0 :: rest)) (npMean (npDiff (d0 :: rest))) rtol = true
    · simp [hc]
    · rw [Bool.not_eq_true] at hc
      simp [hc]

lemma buildDimension_hasValues (typ : String) (d0 : ℚ) (rest : List ℚ)
    (unit : Option String) (rtol : ℚ) (dict : DimensionDict)
    (h : buildDimension typ (d0 :: rest) unit rtol = .ok dict) :
    hasValuesKey dict ↔ (analyzeSampling (d0 :: rest) rtol).values ≠ [] := by
  cases unit with
  | none =>
    simp only [buildDimension] at h
    split_ifs at h <;>
      first
        | exact Except.noConfusion h
        | (injection h with h'
           subst h'
           simp_all [hasValuesKey, List.isEmpty_iff, List.map_eq_nil_iff])
  | some u =>
    simp only [buildDimension] at h
    rcases hres : get_time_offset_and_step u with e | pr
    · rw [hres] at h
      split_ifs at h <;>
        first
          | exact Except.noConfusion h
          | (injection h with h'
             subst h'
             simp_all [hasValuesKey, List.isEmpty_iff, List.map_eq_nil_iff])
    · obtain ⟨offset, stepUs⟩ := pr
      rw [hres] at h
      split_ifs at h <;>
        first
          | exact Except.noConfusion h
          | (injection h with h'
             subst h'
             simp_all [hasValuesKey, List.isEmpty_iff, List.map_eq_nil_iff])

/-- C10: a successfully built dimension of any kind carries a `values` entry
exactly when the computed values list is non-empty: samples with fewer than
3 points and irregular samples always include it, while regular samples
(length at least 3, evenly spaced) omit the key entirely. -/
theorem C10_values_key_iff (typ : String) (data : List ℚ)
    (unit : Option String) (rtol : ℚ) (dict : DimensionDict)
    (h : buildDimension typ data unit rtol = .ok dict) :
    (hasValuesKey dict ↔ (analyzeSampling data rtol).values ≠ []) ∧
    (data.length < 3 → hasValuesKey dict) ∧
    (3 ≤ data.length → (analyzeSampling data rtol).evenlySpaced = false →
      hasValuesKey dict) ∧
    (3 ≤ data.length → (analyzeSampling data rtol).evenlySpaced = true →
      ¬ hasValuesKey dict) := by
  match data with
  | [] => simp [buildDimension] at h
  | d0 :: rest =>
    have hiff := buildDimension_hasValues typ d0 rest unit rtol dict h
    refine ⟨hiff, ?_, ?_, ?_⟩
    · intro hlt
      rw [hiff, analyzeSampling_values_of_short (by omega)]
      simp
    · intro _ hev
      rw [hiff]
      intro hval
      rw [(analyzeSampling_values_nil_iff d0 rest rtol).mp hval] at hev
      cases hev
    · intro _ hev
      rw [hiff]
      intro hne
      exact hne ((analyzeSampling_values_nil_iff d0 rest rtol).mpr hev)

theorem C10_values_key_iff_witness :
    (hasValuesKey
        { dimType := "other", extentNum := some [0, 1], stepNum := none,
          unit := none, valuesNum := some [0, 1] } ↔
      (analyzeSampling [0, 1] 1).values ≠ []) ∧
    ([(0 : ℚ), 1].length < 3 → hasValuesKey
        { dimType := "other", extentNum := some [0, 1], stepNum := none,
          unit := none, valuesNum := some [0, 1] }) ∧
    (3 ≤ [(0 : ℚ), 1].length →
      (analyzeSampling [0, 1] 1).evenlySpaced = false → hasValuesKey
        { dimType := "other", extentNum := some [0, 1], stepNum := none,
          unit := none, valuesNum := some [0, 1] }) ∧
    (3 ≤ [(0 : ℚ), 1].length →
      (analyzeSampling [0, 1] 1).evenlySpaced = true → ¬ hasValuesKey
        { dimType := "other", extentNum := some [0, 1], stepNum := none,
          unit := none, valuesNum := some [0, 1] }) :=
  C10_values_key_iff "OTHER" [0, 1] none 1 _
    (by simp [buildDimension, analyzeSampling_values_of_short])

/-- C4: a temporal dimension with a parseable unit `(epoch, step)` is
translated to ISO form: extent `[epoch + e0·step, epoch + e1·step + step]`
(upper bound advanced one extra step duration), each retained value
`epoch + v·step` without the extra step, a numeric step re-encoded through
`iso_duration`, and no unit on the output dictionary. -/
theorem C4_temporal_translation (d0 : ℚ) (rest : List ℚ) (u : String)
    (rtol : ℚ) (offset stepUs : ℤ)
    (hparse : get_time_offset_and_step u = .ok (offset, stepUs)) :
    buildDimension "TEMPORAL" (d0 :: rest) (some u) rtol = .ok
      { dimType := "temporal"
        extentStr := some [isoformat (offset + tdMul d0 stepUs),
          isoformat (offset +
            tdMul ((d0 :: rest).getLast (List.cons_ne_nil d0 rest)) stepUs +
            stepUs)]
        stepStr := (analyzeSampling (d0 :: rest) rtol).step.map
          (fun q => iso_duration (total_seconds (tdMul q stepUs)))
        unit := none
        valuesStr :=
          if (analyzeSampling (d0 :: rest) rtol).values = [] then none
          else some ((analyzeSampling (d0 :: rest) rtol).values.map
            (fun v => isoformat (offset + tdMul v stepUs))) } := by
  simp [buildDimension, hparse, List.isEmpty_iff, List.map_eq_nil_iff]

theorem C4_temporal_translation_witness :
    buildDimension "TEMPORAL" [0, 1] (some "days since 1990-01-01") 1 = .ok
      { dimType := "temporal"
        extentStr := some [isoformat (631152000000000 + tdMul 0 86400000000),
          isoformat (631152000000000 +
            tdMul (([(0 : ℚ), 1]).getLast (List.cons_ne_nil 0 [1])) 86400000000 +
            86400000000)]
        stepStr := (analyzeSampling [0, 1] 1).step.map
          (fun q => iso_duration (total_seconds (tdMul q 86400000000)))
        unit := none
        valuesStr :=
          if (analyzeSampling [0, 1] 1).values = [] then none
          else some ((analyzeSampling [0, 1] 1).values.map
            (fun v => isoformat (631152000000000 + tdMul v 86400000000))) } :=
  C4_temporal_translation 0 [1] "days since 1990-01-01" 1 631152000000000
    86400000000 (by decide)

lemma roundHalfEven_intCast (n : ℤ) : roundHalfEven (n : ℚ) = n := by
  unfold roundHalfEven
  rw [Int.floor_intCast]
  norm_num

lemma roundCoord6_int (n : ℤ) : roundCoord6 (n : ℚ) = n := by
  unfold roundCoord6
  rw [show (n : ℚ) * 1000000 = ((n * 1000000 : ℤ) : ℚ) by push_cast; ring,
    roundHalfEven_intCast]
  push_cast
  ring

/-- C6: geometry derivation expands a spatial dimension's extent outward by
half a step on each side exactly when that dimension has a non-null step,
and leaves a dimension with only values (step null) unadjusted; in
particular X extent [-179.5, 179.5] step 1 and Y extent [-89.5, 89.5] step 1
give the full-globe rectangle
[[180,-90],[180,90],[-180,90],[-180,-90],[180,-90]]. -/
theorem C6_pixel_area_padding :
    (∀ (xl xh yl yh : ℚ) (sx sy : Option ℚ) (xv yv : Option (List ℚ)),
      get_geometry
        [{ dimType := "spatial", axis := some "x", extentNum := some [xl, xh],
           stepNum := sx, valuesNum := xv },
         { dimType := "spatial", axis := some "y", extentNum := some [yl, yh],
           stepNum := sy, valuesNum := yv }] {} =
      some ((boxRing
        (match sx with | some s => xl - s / 2 | none => xl)
        (match sy with | some s => yl - s / 2 | none => yl)
        (match sx with | some s => xh + s / 2 | none => xh)
        (match sy with | some s => yh + s / 2 | none => yh)).map
          (fun p => (roundCoord6 p.1, roundCoord6 p.2)))) ∧
    get_geometry
      [{ dimType := "spatial", axis := some "x",
         extentNum := some [-(359 / 2), 359 / 2], stepNum := some 1 },
       { dimType := "spatial", axis := some "y",
         extentNum := some [-(179 / 2), 179 / 2], stepNum := some 1 }] {} =
      some [(180, -90), (180, 90), (-180, 90), (-180, -90), (180, -90)] := by
  have hgen : ∀ (xl xh yl yh : ℚ) (sx sy : Option ℚ) (xv yv : Option (List ℚ)),
      get_geometry
        [{ dimType := "spatial", axis := some "x", extentNum := some [xl, xh],
           stepNum := sx, valuesNum := xv },
         { dimType := "spatial", axis := some "y", extentNum := some [yl, yh],
           stepNum := sy, valuesNum := yv }] {} =
      some ((boxRing
        (match sx with | some s => xl - s / 2 | none => xl)
        (match sy with | some s => yl - s / 2 | none => yl)
        (match sx with | some s => xh + s / 2 | none => xh)
        (match sy with | some s => yh + s / 2 | none => yh)).map
          (fun p => (roundCoord6 p.1, roundCoord6 p.2))) := by
    intro xl xh yl yh sx sy xv yv
    simp [get_geometry, findDimension]
  refine ⟨hgen, ?_⟩
  rw [hgen (-(359 / 2)) (359 / 2) (-(179 / 2)) (179 / 2) (some 1) (some 1)
    none none]
  have h1 : roundCoord6 (-180 : ℚ) = (-180 : ℚ) := by
    simpa using roundCoord6_int (-180)
  have h2 : roundCoord6 (180 : ℚ) = (180 : ℚ) := by
    simpa using roundCoord6_int 180
  have h3 : roundCoord6 (-90 : ℚ) = (-90 : ℚ) := by
    simpa using roundCoord6_int (-90)
  have h4 : roundCoord6 (90 : ℚ) = (90 : ℚ) := by
    simpa using roundCoord6_int 90
  norm_num [boxRing, h1, h2, h3, h4]

/-- C8 (amended): `get_time_offset_and_step` fails with the unit-parse error
exactly when the unit does not match `"<word> since <rest>"`; when it matches
AND the word is a `timedelta` component name AND the timestamp parses, it
returns the parsed reference timestamp and one unit of the word; converting
numeric offset 0 returns the epoch exactly; and "days since 1990-01-01"
yields the 1990-01-01T00:00:00 epoch with a one-day step. -/
theorem C8_unit_parse (u : String) (w r : String) (offset stepUs : ℤ) :
    (get_time_offset_and_step u = .error .unitParseError ↔
      unitRegexMatch u = none) ∧
    (unitRegexMatch u = some (w, r) → parse_datetime r = some offset →
      timedeltaUnitUs w = some stepUs →
      get_time_offset_and_step u = .ok (offset, stepUs)) ∧
    get_time_offset_and_step "days since 1990-01-01" =
      .ok (datetimeUs 1990 1 1 0 0 0 0, 86400000000) ∧
    offset + tdMul 0 stepUs = offset := by
  refine ⟨?_, ?_, by decide, ?_⟩
  · unfold get_time_offset_and_step
    rcases hm : unitRegexMatch u with _ | ⟨w', r'⟩
    · simp
    · simp only [hm]
      rcases parse_datetime r' with _ | t
      · simp
      · rcases timedeltaUnitUs w' with _ | us
        · simp
        · simp
  · intro hm hp hw
    unfold get_time_offset_and_step
    rw [hm]
    simp [hp, hw]
  · have hz : tdMul 0 stepUs = 0 := by
      unfold tdMul roundHalfEven
      norm_num
    rw [hz, add_zero]

/-- C8 (counterexample): "eons since 2000-01-01" matches the
`"<word> since <rest>"` pattern, yet the function does not return a parsed
result — `timedelta(eons=1)` raises a `TypeError` — refuting "when it
matches, it returns the parsed reference timestamp and one unit of word". -/
theorem C8_match_without_result :
    unitRegexMatch "eons since 2000-01-01" = some ("eons", "2000-01-01") ∧
    get_time_offset_and_step "eons since 2000-01-01" =
      .error .badStepWord := by
  exact ⟨by decide, by decide⟩

theorem C8_unit_parse_witness :
    (get_time_offset_and_step "days since 1990-01-01" =
        .error .unitParseError ↔
      unitRegexMatch "days since 1990-01-01" = none) ∧
    get_time_offset_and_step "days since 1990-01-01" =
      .ok (631152000000000, 86400000000) ∧
    (631152000000000 : ℤ) + tdMul 0 86400000000 = 631152000000000 :=
  ⟨(C8_unit_parse "days since 1990-01-01" "days" "1990-01-01"
      631152000000000 86400000000).1,
    (C8_unit_parse "days since 1990-01-01" "days" "1990-01-01"
      631152000000000 86400000000).2.1 (by decide) (by decide) (by decide),
    (C8_unit_parse "days since 1990-01-01" "days" "1990-01-01"
      631152000000000 86400000000).2.2.2⟩

/-- C1 (counterexample): an item that already has non-null start/end
datetimes, extended over an asset whose temporal dimension has extent
[1990-01-01, 1991-01-01]: both `extend_asset` and `extend_item` replace the
existing start datetime with the asset-derived one, refuting "the existing
start and end values are left unchanged". -/
theorem C1_existing_extent_overwritten :
    (extend_asset { startDatetime := some 0, endDatetime := some 1 }
      [{ dimType := "temporal",
         extentStr := some ["1990-01-01T00:00:00", "1991-01-01T00:00:00"] }]
      {} none).startDatetime = some 631152000000000 ∧
    (extend_item { startDatetime := some 0, endDatetime := some 1 }
      [{ dimType := "temporal",
         extentStr := some ["1990-01-01T00:00:00", "1991-01-01T00:00:00"] }]
      {} none).startDatetime = some 631152000000000 ∧
    some (631152000000000 : ℤ) ≠ some (0 : ℤ) := by
  refine ⟨by decide, by decide, by decide⟩

/-- C1 (amended): `extend_asset` applies the derived temporal extent
unconditionally — whenever the asset yields a temporal dimension with a
two-entry extent, the item's start/end datetimes are set from it regardless
of any previously-established values, and `item.datetime` is cleared; only
the fallback derivation inside `extend_item`, which runs after
`extend_asset`, is skipped when a start datetime, end datetime or datetime
is already present. -/
theorem C1_overwrite_behaviour :
    (∀ (st : ItemState) (dims : List DimensionDict) (attrs : GeoAttributes)
        (tc : Option (String × String)) (td : DimensionDict) (s e : String),
      findDimension dims "temporal" none = some td →
      td.extentStr = some [s, e] →
      (extend_asset st dims attrs tc).startDatetime =
        (if s == "" then none else parse_datetime s) ∧
      (extend_asset st dims attrs tc).endDatetime =
        (if e == "" then none else parse_datetime e) ∧
      (extend_asset st dims attrs tc).datetime = none) ∧
    (∀ (st : ItemState) (dims : List DimensionDict),
      st.startDatetime ≠ none ∨ st.endDatetime ≠ none ∨ st.datetime ≠ none →
      extend_item_post st dims = st) := by
  constructor
  · intro st dims attrs tc td s e hfind hext
    unfold extend_asset
    rw [hfind]
    simp [hext]
  · intro st dims h
    unfold extend_item_post
    rw [if_neg]
    simp only [Option.isNone_iff_eq_none]
    rintro ⟨h1, h2, h3⟩
    rcases h with h | h | h <;> exact h (by assumption)

theorem C1_overwrite_behaviour_witness :
    ((extend_asset
        { startDatetime := some 0, endDatetime := some 1, datetime := none }
        [{ dimType := "temporal",
           extentStr := some ["1990-01-01T00:00:00", "1991-01-01T00:00:00"] }]
        {} none).startDatetime =
      (if "1990-01-01T00:00:00" == "" then none
       else parse_datetime "1990-01-01T00:00:00") ∧
      (extend_asset
        { startDatetime := some 0, endDatetime := some 1, datetime := none }
        [{ dimType := "temporal",
           extentStr := some ["1990-01-01T00:00:00", "1991-01-01T00:00:00"] }]
        {} none).endDatetime =
      (if "1991-01-01T00:00:00" == "" then none
       else parse_datetime "1991-01-01T00:00:00") ∧
      (extend_asset
        { startDatetime := some 0, endDatetime := some 1, datetime := none }
        [{ dimType := "temporal",
           extentStr := some ["1990-01-01T00:00:00", "1991-01-01T00:00:00"] }]
        {} none).datetime = none) ∧
    extend_item_post { startDatetime := some 5 } [] =
      { startDatetime := some 5 } :=
  ⟨C1_overwrite_behaviour.1
      { startDatetime := some 0, endDatetime := some 1, datetime := none }
      [{ dimType := "temporal",
         extentStr := some ["1990-01-01T00:00:00", "1991-01-01T00:00:00"] }]
      {} none
      { dimType := "temporal",
        extentStr := some ["1990-01-01T00:00:00", "1991-01-01T00:00:00"] }
      "1990-01-01T00:00:00" "1991-01-01T00:00:00" (by decide) (by decide),
    C1_overwrite_behaviour.2 { startDatetime := some 5 } []
      (Or.inl (by decide))⟩

/-! ## Duration-encoding refinement (C7) -/


lemma toString_intCast_nat (m : ℕ) : toString (m : ℤ) = toString m := rfl

lemma floorStage (n k K : ℕ) (hK : k * 1000000 = K) :
    ⌊(n : ℚ) / 1000000 / (k : ℚ)⌋ = ((n / K : ℕ) : ℤ) := by
  subst hK
  rw [div_div,
    show (1000000 : ℚ) * (k : ℚ) = ((k * 1000000 : ℕ) : ℚ) by push_cast; ring,
    Rat.floor_natCast_div_natCast]
  omega

lemma remStage (n k K : ℕ) (hK : k * 1000000 = K) :
    (n : ℚ) / 1000000 - (((n / K : ℕ) : ℤ) : ℚ) * ((k : ℕ) : ℚ) =
    ((n % K : ℕ) : ℚ) / 1000000 := by
  subst hK
  have hq : ((k : ℚ) * 1000000) * ((n / (k * 1000000) : ℕ) : ℚ) +
      ((n % (k * 1000000) : ℕ) : ℚ) = (n : ℚ) := by
    exact_mod_cast congrArg (fun x : ℕ => (x : ℚ)) (Nat.div_add_mod n (k * 1000000))
  rw [Int.cast_natCast]
  field_simp
  linear_combination -hq

lemma extractIntervals_cons (p : String × ℕ) (ps : List (String × ℕ))
    (st : ℚ × List String) :
    extractIntervals (p :: ps) st = extractIntervals ps (extractStep st p) := rfl

lemma extractIntervals_nil (st : ℚ × List String) :
    extractIntervals [] st = st := rfl

lemma extract_step_eval (nm : String) (k K : ℕ) (hK : k * 1000000 = K)
    (hk : 0 < k) (n : ℕ) (acc : List String) :
    extractStep ((n : ℚ) / 1000000, acc) (nm, k) =
    (((n % K : ℕ) : ℚ) / 1000000,
      acc ++ if n / K ≠ 0 then [toString (n / K) ++ nm] else []) := by
  unfold extractStep
  simp only [floorStage n k K hK, ne_eq, Int.natCast_eq_zero]
  by_cases h : n / K = 0
  · rw [if_neg (by simp [h])]
    have hKpos : 0 < K := by omega
    have h1 : n % K = n := Nat.mod_eq_of_lt (by
      rcases Nat.lt_or_ge n K with hlt | hge
      · exact hlt
      · exact absurd h (by
          have := Nat.div_le_div_right (c := K) hge
          simp [Nat.div_self hKpos] at this
          omega))
    simp [h, h1]
  · rw [if_pos (by simp [h])]
    rw [remStage n k K hK]
    simp only [h, ne_eq, not_false_eq_true, if_true, toString_intCast_nat]

lemma extract_date (n : ℕ) :
    extractIntervals date_intervals ((n : ℚ) / 1000000, []) =
    (((n % 86400000000 : ℕ) : ℚ) / 1000000,
      (if n / 604800000000 ≠ 0 then [toString (n / 604800000000) ++ "W"]
       else []) ++
      (if n % 604800000000 / 86400000000 ≠ 0 then
        [toString (n % 604800000000 / 86400000000) ++ "D"] else [])) := by
  rw [show date_intervals = [("W", 604800), ("D", 86400)] from rfl,
    extractIntervals_cons,
    extract_step_eval "W" 604800 604800000000 (by norm_num) (by norm_num) n [],
    extractIntervals_cons,
    extract_step_eval "D" 86400 86400000000 (by norm_num) (by norm_num)
      (n % 604800000000) _,
    extractIntervals_nil]
  have : n % 604800000000 % 86400000000 = n % 86400000000 := by omega
  rw [this]
  simp

lemma extract_time (r : ℕ) :
    extractIntervals time_intervals ((r : ℚ) / 1000000, []) =
    (((r % 60000000 : ℕ) : ℚ) / 1000000,
      (if r / 3600000000 ≠ 0 then [toString (r / 3600000000) ++ "H"]
       else []) ++
      (if r % 3600000000 / 60000000 ≠ 0 then
        [toString (r % 3600000000 / 60000000) ++ "M"] else [])) := by
  rw [show time_intervals = [("H", 3600), ("M", 60)] from rfl,
    extractIntervals_cons,
    extract_step_eval "H" 3600 3600000000 (by norm_num) (by norm_num) r [],
    extractIntervals_cons,
    extract_step_eval "M" 60 60000000 (by norm_num) (by norm_num)
      (r % 3600000000) _,
    extractIntervals_nil]
  have : r % 3600000000 % 60000000 = r % 60000000 := by omega
  rw [this]
  simp

lemma ratdiv_eq_zero_iff (r : ℕ) : ((r : ℚ) / 1000000 = 0) ↔ r = 0 := by
  rw [div_eq_zero_iff]
  simp

lemma floor_ratdiv (r : ℕ) : ⌊(r : ℚ) / 1000000⌋ = ((r / 1000000 : ℕ) : ℤ) := by
  rw [show ((1000000 : ℚ)) = ((1000000 : ℕ) : ℚ) by norm_num,
    Rat.floor_natCast_div_natCast]
  omega

lemma intfloor_eq_self_iff (r : ℕ) :
    ((⌊(r : ℚ) / 1000000⌋ : ℚ) = (r : ℚ) / 1000000) ↔ r % 1000000 = 0 := by
  rw [floor_ratdiv, Int.cast_natCast]
  constructor
  · intro h
    have h2 : ((r / 1000000 : ℕ) : ℚ) * 1000000 = (r : ℚ) := by
      field_simp at h
      linarith [h]
    have h3 : r / 1000000 * 1000000 = r := by exact_mod_cast h2
    omega
  · intro h
    have h3 : r / 1000000 * 1000000 = r := by omega
    field_simp
    exact_mod_cast h3

lemma formatN_eval (r : ℕ) :
    formatN ((r : ℚ) / 1000000) = toString (r / 1000000) := by
  unfold formatN
  rw [floor_ratdiv, toString_intCast_nat]

lemma formatF_eval (r : ℕ) :
    formatF ((r : ℚ) / 1000000) =
    toString (r / 1000000) ++ "." ++ padZeros 6 (r % 1000000) := by
  unfold formatF
  rw [show (r : ℚ) / 1000000 * 1000000 = (r : ℚ) by field_simp,
    Int.floor_natCast]
  dsimp only
  rw [show ((r : ℤ) / 1000000) = ((r / 1000000 : ℕ) : ℤ) from by omega,
    toString_intCast_nat,
    show ((r : ℤ) % 1000000) = ((r % 1000000 : ℕ) : ℤ) from by omega,
    Int.toNat_natCast]

/-- C7: `iso_duration` realises exactly the greedy decomposition the claim
describes: for every (non-negative) duration of `n` microseconds the encoded
string decomposes the total seconds greedily into weeks, days, hours,
minutes and remaining seconds, omits zero components, emits a `T` section
exactly when a sub-day component is non-zero, renders integral seconds
without a decimal point and fractional seconds with their microsecond
digits; `1w+1d+1h+1m+1.000001s` encodes as `"P1W1DT1H1M1.000001S"` and the
zero duration as `"PT0S"`. -/
theorem C7_duration_encode :
    (∀ n : ℕ, iso_duration ((n : ℚ) / 1000000) = specGreedyRender n) ∧
    iso_duration (694861 + 1 / 1000000) = "P1W1DT1H1M1.000001S" ∧
    iso_duration 0 = "PT0S" := by
  refine ⟨?_, ?_, ?_⟩
  · intro n
    simp only [iso_duration, specGreedyRender]
    rw [extract_date n]
    dsimp only
    rw [extract_time (n % 86400000000)]
    dsimp only
    rw [show n % 86400000000 % 3600000000 = n % 3600000000 from by omega,
      show n % 86400000000 % 60000000 = n % 60000000 from by omega]
    simp only [ne_eq, ratdiv_eq_zero_iff, intfloor_eq_self_iff,
      formatN_eval, formatF_eval]
    rw [show n % 60000000 % 1000000 = n % 1000000 from by omega]
    have hsec : (¬(n % 60000000 / 1000000 = 0) ∨ ¬(n % 1000000 = 0)) ↔
        ¬(n % 60000000 = 0) := by omega
    simp only [hsec]
    by_cases hc : n % 60000000 = 0 <;>
      simp [hc, List.append_assoc]
  · norm_num [iso_duration, extractIntervals, extractStep, date_intervals,
      time_intervals, formatF, String.join, padZeros]
    decide
  · norm_num [iso_duration, extractIntervals, extractStep, date_intervals,
      time_intervals]
